import Mathlib

/-
  Verification of the real-time cursor position synchronization core of the
  supathon repository.

  The store is the Supabase table cursor_positions, written by HTTP POST
  (plain SQL INSERT) from the Lens Studio broadcasters and the PC web client,
  read back by polling GET queries ordered by timestamp descending with a
  limit of one row, and cleaned by a periodic DELETE on a timestamp cutoff.

  Numbers (JS number, SQL FLOAT/BIGINT as handled by JS) are modelled as
  rationals; timestamps are Date.now() milliseconds, also as rationals.
-/

namespace Supathon

/-- A row of the cursor_positions table (schema in the trailing comment of
RealtimeCursorBroadcaster and in the README). device_type is only set by
SimpleCursorBroadcaster. -/
structure CursorRow where
  room_name : String
  user_id : String
  user_name : String
  x : ℚ
  y : ℚ
  color : String
  timestamp : ℚ
  device_type : Option String := none
deriving DecidableEq, Repr

/-- SQL INSERT into the cursor_positions table: appends a fresh row, never
touching existing rows. -/
def insertRow (table : List CursorRow) (r : CursorRow) : List CursorRow :=
  table ++ [r]

/-- Number of rows the table holds for one (room, client) pair. -/
def countRecordsFor (roomName userId : String) (table : List CursorRow) : ℕ :=
  (table.filter (fun r => r.room_name == roomName && r.user_id == userId)).length

/-- RealtimeCursorBroadcaster.broadcastCursorPosition: posts the given
coordinates unchanged when initialized; the cursorData literal sets
timestamp to Date.now(). No validation or clamping is performed. -/
def broadcastCursorPosition (isInitialized : Bool) (roomName : String)
    (userId userName : String) (x y : ℚ) (color : String) (now : ℚ)
    (table : List CursorRow) : Bool × List CursorRow :=
  if isInitialized then
    (true, insertRow table
      { room_name := roomName, user_id := userId, user_name := userName,
        x := x, y := y, color := color, timestamp := now })
  else
    (false, table)

/-- SimpleCursorBroadcaster.broadcastCursorPosition: same POST, with the
extra device_type field set to "spectacles". -/
def simpleBroadcastCursorPosition (isInitialized : Bool) (roomName : String)
    (userId userName : String) (x y : ℚ) (color : String) (now : ℚ)
    (table : List CursorRow) : Bool × List CursorRow :=
  if isInitialized then
    (true, insertRow table
      { room_name := roomName, user_id := userId, user_name := userName,
        x := x, y := y, color := color, timestamp := now,
        device_type := some "spectacles" })
  else
    (false, table)

/-- RealtimeCursorBroadcaster.broadcastSpectaclesCursor: throttled POST.
Result is (ok, new lastBroadcastTime, new table). broadcastInterval is in
seconds and compared against milliseconds times 1000, as in the source. -/
def broadcastSpectaclesCursor (isInitialized : Bool) (roomName : String)
    (broadcastInterval lastBroadcastTime now : ℚ)
    (userId userName : String) (x y : ℚ) (color : String)
    (table : List CursorRow) : Bool × ℚ × List CursorRow :=
  if isInitialized then
    if now - lastBroadcastTime < broadcastInterval * 1000 then
      (false, lastBroadcastTime, table)
    else
      (true, now, insertRow table
        { room_name := roomName, user_id := userId, user_name := userName,
          x := x, y := y, color := color, timestamp := now })
  else
    (false, lastBroadcastTime, table)

/-- RealtimeCursorBroadcaster.broadcastControlSignal: control rows are plain
position rows with the "_control" suffix on the user id and coordinates
(0, 0). -/
def broadcastControlSignal (isInitialized : Bool) (roomName userId userColor : String)
    (now : ℚ) (table : List CursorRow) : List CursorRow :=
  if isInitialized then
    insertRow table
      { room_name := roomName, user_id := userId ++ "_control",
        user_name := "Spectacles Controller", x := 0, y := 0,
        color := userColor, timestamp := now }
  else
    table

/-- SpectaclesCursorClient.generateUserId: a "pc_" prefix plus a random
suffix. -/
def generateUserId (suffix : String) : String :=
  "pc_" ++ suffix

/-- The row inserted by SpectaclesCursorClient.setControlMode. -/
def controlRecord (roomName userId userName userColor : String) (now : ℚ) :
    CursorRow :=
  { room_name := roomName, user_id := userId ++ "_control",
    user_name := userName ++ " (control)", x := 0, y := 0,
    color := userColor, timestamp := now }

/-- SpectaclesCursorClient.setControlMode: inserts the control row into the
cursor_positions table. -/
def setControlMode (roomName userId userName userColor : String) (now : ℚ)
    (table : List CursorRow) : List CursorRow :=
  insertRow table (controlRecord roomName userId userName userColor now)

/-
  Coordinate transforms.
-/

/-- The Lens Studio to web percentage mapping of
startSpectaclesCursorBroadcast: axis inversion, then the linear map onto
0..100 with the Y axis flipped, then clamping with Math.max 0 / Math.min 100. -/
def lsToWebPercent (lsXRange lsYRange : ℚ) (invX invY : Bool) (lsX0 lsY0 : ℚ) :
    ℚ × ℚ :=
  let lsX := if invX then -lsX0 else lsX0
  let lsY := if invY then -lsY0 else lsY0
  let webX := ((lsX + lsXRange) / (lsXRange * 2)) * 100
  let webY := ((lsYRange - lsY) / (lsYRange * 2)) * 100
  (max 0 (min 100 webX), max 0 (min 100 webY))

/-- The web percentage to Lens Studio mapping of
RealtimeCursorFollower.handleCursorUpdate: the linear map back from 0..100,
then axis inversion. -/
def webPercentToLs (lsXRange lsYRange : ℚ) (invX invY : Bool) (x y : ℚ) :
    ℚ × ℚ :=
  let lsX0 := (x / 100) * (lsXRange * 2) - lsXRange
  let lsY0 := lsYRange - (y / 100) * (lsYRange * 2)
  ((if invX then -lsX0 else lsX0), (if invY then -lsY0 else lsY0))

/-- The full native to exchange pipeline of startSpectaclesCursorBroadcast:
perspective scaling of the camera-relative components, then the clamped
Lens Studio to web mapping. -/
def spectaclesExchangePoint (lsXRange lsYRange coordinateScale perspectiveScale : ℚ)
    (invX invY : Bool) (rightComponent upComponent forwardComponent : ℚ) : ℚ × ℚ :=
  let screenScale := perspectiveScale / max |forwardComponent| 1
  lsToWebPercent lsXRange lsYRange invX invY
    (rightComponent * screenScale * coordinateScale)
    (upComponent * screenScale * coordinateScale)

/-- A 3D vector, as used for world and camera positions. -/
structure Vec3 where
  x : ℚ
  y : ℚ
  z : ℚ
deriving DecidableEq, Repr

/-- SimpleCursorBroadcaster.worldToScreen: camera-relative offset scaled
onto 0..100 around the midpoint 50, Y flipped, then clamped. -/
def worldToScreen (positionScale : ℚ) (worldPos cameraPos : Vec3) : ℚ × ℚ :=
  let relX := worldPos.x - cameraPos.x
  let relY := worldPos.y - cameraPos.y
  let x := 50 + relX * positionScale
  let y := 50 - relY * positionScale
  (max 0 (min 100 x), max 0 (min 100 y))

/-
  The poll consumer (RealtimeCursorFollower).
-/

/-- The inspector parameters of RealtimeCursorFollower that
handleCursorUpdate reads. -/
structure FollowerParams where
  lsXRange : ℚ
  lsYRange : ℚ
  invertX : Bool
  invertY : Bool
  movementScale : ℚ
  heightOffset : ℚ
  distanceFromCamera : ℚ
deriving DecidableEq, Repr

/-- The per-user info kept in RealtimeCursorFollower.activeUsers. -/
structure UserInfo where
  name : String
  color : String
  lastSeen : ℚ
deriving DecidableEq, Repr

/-- The mutable fields of RealtimeCursorFollower touched by
handleCursorUpdate. -/
structure FollowerState where
  lastCursorUpdate : ℚ
  targetPosition : Vec3
  activeUsers : List (String × UserInfo)
deriving DecidableEq, Repr

/-- JS Map.set: replace the value under an existing key, else append. -/
def mapSet (m : List (String × UserInfo)) (k : String) (v : UserInfo) :
    List (String × UserInfo) :=
  if m.any (fun p => p.1 == k) then
    m.map (fun p => if p.1 == k then (k, v) else p)
  else
    m ++ [(k, v)]

/-- The timestamp actually used by handleCursorUpdate:
cursorData.timestamp falls back to Date.now() when falsy (0 for a number). -/
def effectiveTimestamp (tnow : ℚ) (r : CursorRow) : ℚ :=
  if r.timestamp = 0 then tnow else r.timestamp

/-- The targetPosition computed by handleCursorUpdate from an exchange
point: web percent to Lens Studio, then normalized by the ranges, scaled by
movementScale, with heightOffset on Y and distanceFromCamera on Z. -/
def mkTargetPosition (P : FollowerParams) (x y : ℚ) : Vec3 :=
  let ls := webPercentToLs P.lsXRange P.lsYRange P.invertX P.invertY x y
  { x := ls.1 / P.lsXRange * P.movementScale,
    y := ls.2 / P.lsYRange * P.movementScale + P.heightOffset,
    z := P.distanceFromCamera }

/-- RealtimeCursorFollower.handleCursorUpdate: drops any record whose
timestamp is not newer than the single lastCursorUpdate watermark, else
advances the watermark, recomputes targetPosition and records the user. -/
def handleCursorUpdate (P : FollowerParams) (st : FollowerState) (tnow : ℚ)
    (r : CursorRow) : FollowerState :=
  let ts := effectiveTimestamp tnow r
  if ts ≤ st.lastCursorUpdate then st
  else
    { lastCursorUpdate := ts,
      targetPosition := mkTargetPosition P r.x r.y,
      activeUsers := mapSet st.activeUsers r.user_id
        { name := r.user_name, color := r.color, lastSeen := ts } }

/-- SQL LIKE with the pattern used by checkForCursorUpdates,
user_id=like.pc_%25, that is LIKE pc_%: the letters p and c, one arbitrary
character, then anything. -/
def likePcPattern (s : String) : Bool :=
  match s.data with
  | a :: b :: _ :: _ => a == 'p' && b == 'c'
  | _ => false

/-- The row filter of the checkForCursorUpdates GET query:
room_name=eq.room and user_id=like.pc_%25. -/
def pollMatches (roomName : String) (r : CursorRow) : Bool :=
  r.room_name == roomName && likePcPattern r.user_id

/-- One step of order=timestamp.desc with limit=1: keep the row with the
larger timestamp. -/
def pollStep (acc : Option CursorRow) (r : CursorRow) : Option CursorRow :=
  match acc with
  | none => some r
  | some b => if b.timestamp < r.timestamp then some r else some b

/-- The checkForCursorUpdates GET query: among the rows of the room whose
user_id matches LIKE pc_%, the one with the maximal timestamp, if any. -/
def pollLatestPc (roomName : String) (table : List CursorRow) : Option CursorRow :=
  (table.filter (pollMatches roomName)).foldl pollStep none

/-
  The eviction sweeper.
-/

/-- The cutoff computed by cleanupOldCursorData:
Date.now() minus maxDataAge seconds times 1000. -/
def cleanupCutoff (now maxDataAge : ℚ) : ℚ :=
  now - maxDataAge * 1000

/-- The DELETE with timestamp=lt.cutoffTime: rows strictly older than the
cutoff are removed, every other row is kept. -/
def deleteOlderThan (cutoffTime : ℚ) (table : List CursorRow) : List CursorRow :=
  table.filter (fun r => decide (¬ r.timestamp < cutoffTime))

/-- RealtimeCursorBroadcaster.cleanupOldCursorData: computes the cutoff
from the current time and maxDataAge and issues the DELETE. -/
def cleanupOldCursorData (now maxDataAge : ℚ) (table : List CursorRow) :
    List CursorRow :=
  deleteOlderThan (cleanupCutoff now maxDataAge) table

/-- The fixed sweep interval of startCleanupTimer, cleanupTimer.reset 10. -/
def cleanupIntervalSeconds : ℚ := 10

/-- The inspector default of maxDataAge in RealtimeCursorBroadcaster. -/
def defaultMaxDataAge : ℚ := 30

/-
  The leadership state machine of RealtimeCursorBroadcaster.
-/

/-- The control-mode fields of RealtimeCursorBroadcaster. -/
structure ControlState where
  isSpectaclesLeader : Bool
  currentControlMode : String
deriving DecidableEq, Repr

/-- Field initializers: isSpectaclesLeader = false,
currentControlMode = pc_leader. -/
def initialControlState : ControlState :=
  { isSpectaclesLeader := false, currentControlMode := "pc_leader" }

/-- becomeSpectaclesLeader: the device takes control. -/
def becomeSpectaclesLeader : ControlState :=
  { isSpectaclesLeader := true, currentControlMode := "spectacles_leader" }

/-- resignSpectaclesLeader: control is handed back to the PC. -/
def resignSpectaclesLeader : ControlState :=
  { isSpectaclesLeader := false, currentControlMode := "pc_leader" }

/-- toggleSpectaclesControl: the take-control button handler. -/
def toggleSpectaclesControl (s : ControlState) : ControlState :=
  if s.isSpectaclesLeader then resignSpectaclesLeader else becomeSpectaclesLeader

/-- startBroadcastService: auto-starts as device leader exactly when a
cursor object is assigned. -/
def startBroadcastServiceMode (hasCursorObject : Bool) (s : ControlState) :
    ControlState :=
  if hasCursorObject then becomeSpectaclesLeader else s

/-- The events that can change the control mode. -/
inductive ControlEvent where
  | takeControl : ControlEvent
  | releaseControl : ControlEvent
  | buttonTap : ControlEvent
  | serviceStart : Bool → ControlEvent
deriving DecidableEq, Repr

/-- Dispatch of one control event. -/
def controlStep (s : ControlState) (e : ControlEvent) : ControlState :=
  match e with
  | ControlEvent.takeControl => becomeSpectaclesLeader
  | ControlEvent.releaseControl => resignSpectaclesLeader
  | ControlEvent.buttonTap => toggleSpectaclesControl s
  | ControlEvent.serviceStart b => startBroadcastServiceMode b s

/-- The control mode reached from the initial state by a sequence of
events. -/
def runControl (evs : List ControlEvent) : ControlState :=
  evs.foldl controlStep initialControlState

/-
  Range predicates for the stored coordinates.
-/

/-- Both components of an exchange point lie in the 0..100 range. -/
def pairInRange (p : ℚ × ℚ) : Prop :=
  0 ≤ p.1 ∧ p.1 ≤ 100 ∧ 0 ≤ p.2 ∧ p.2 ≤ 100

/-- The stored coordinates of a row lie in the 0..100 range. -/
def rowInRange (r : CursorRow) : Prop :=
  0 ≤ r.x ∧ r.x ≤ 100 ∧ 0 ≤ r.y ∧ r.y ≤ 100

/-- Every row of the table is in range. -/
def tableInRange (table : List CursorRow) : Prop :=
  ∀ r ∈ table, rowInRange r

/-
  Concrete scenarios used as counterexamples and witnesses.
-/

/-- First write of the two-write scenario: the spectacles broadcaster posts
(10, 20) at time 1000 into an empty table. -/
def twoWritesFirst : Bool × ℚ × List CursorRow :=
  broadcastSpectaclesCursor true "demo" 0.2 0 1000 "spectacles_a" "Spectacles"
    10 20 "#4ECDC4" []

/-- Second write of the scenario: the same client posts (15, 25) at time
2000. -/
def twoWritesTable : List CursorRow :=
  (broadcastSpectaclesCursor true "demo" 0.2 twoWritesFirst.2.1 2000
    "spectacles_a" "Spectacles" 15 25 "#4ECDC4" twoWritesFirst.2.2).2.2

/-- A table holding one record of client u1 with timestamp 2000. -/
def staleWriteTable : List CursorRow :=
  [{ room_name := "demo", user_id := "u1", user_name := "N",
     x := 5, y := 5, color := "#fff", timestamp := 2000 }]

/-- A record old enough to be evicted at time 100000 with a 30 s TTL. -/
def oldRow : CursorRow :=
  { room_name := "demo", user_id := "pc_old", user_name := "Old",
    x := 1, y := 2, color := "#aaa", timestamp := 1000 }

/-- A record refreshed shortly before the sweep at time 100000. -/
def freshRow : CursorRow :=
  { room_name := "demo", user_id := "pc_new", user_name := "New",
    x := 3, y := 4, color := "#bbb", timestamp := 95000 }

/-- A table holding the old and the fresh record. -/
def sweepTable : List CursorRow :=
  [oldRow, freshRow]

/-- Follower parameters at the inspector defaults. -/
def exampleFollowerParams : FollowerParams :=
  { lsXRange := 50, lsYRange := 30, invertX := false, invertY := false,
    movementScale := 1.5, heightOffset := 0, distanceFromCamera := 2 }

/-- A follower that has already processed a record with timestamp 5000. -/
def exampleFollowerState : FollowerState :=
  { lastCursorUpdate := 5000, targetPosition := { x := 0, y := 0, z := 2 },
    activeUsers := [] }

/-- A record of a different client whose timestamp does not exceed the
follower watermark. -/
def otherClientRow : CursorRow :=
  { room_name := "demo", user_id := "pc_other", user_name := "Other",
    x := 40, y := 60, color := "#ccc", timestamp := 3000 }

/-- A table with one ordinary PC cursor row, older than the control row
about to be written. -/
def beforeControlTable : List CursorRow :=
  [{ room_name := "demo", user_id := "pc_abc123", user_name := "PC",
     x := 33, y := 44, color := "#ddd", timestamp := 1000 }]

/-
  Helper lemmas.
-/

/-- Appending an in-range row preserves the table range invariant. -/
theorem tableInRange_append_row {table : List CursorRow} {r : CursorRow}
    (h : tableInRange table) (hr : rowInRange r) :
    tableInRange (table ++ [r]) := by
  intro b hb
  rcases List.mem_append.mp hb with hb | hb
  · exact h b hb
  · rcases List.mem_singleton.mp hb with rfl
    exact hr

/-- The Math.max 0 / Math.min 100 clamp always lands in the 0..100 range. -/
theorem clamp01_bounds (v : ℚ) :
    0 ≤ max 0 (min 100 v) ∧ max 0 (min 100 v) ≤ 100 :=
  ⟨le_max_left _ _, max_le (by norm_num) (min_le_left _ _)⟩

/-- When the mapped X value is already inside 0..100 the clamp is the
identity and the follower mapping undoes the broadcaster mapping. -/
theorem axisX_roundtrip (R q : ℚ) (hR : 0 < R) (h1 : -R ≤ q) (h2 : q ≤ R) :
    ((max 0 (min 100 (((q + R) / (R * 2)) * 100))) / 100) * (R * 2) - R = q := by
  have hw0 : 0 ≤ ((q + R) / (R * 2)) * 100 := by
    have hd : (0 : ℚ) ≤ (q + R) / (R * 2) := div_nonneg (by linarith) (by linarith)
    linarith
  have hw1 : ((q + R) / (R * 2)) * 100 ≤ 100 := by
    have hd : (q + R) / (R * 2) ≤ 1 := by
      rw [div_le_one (by linarith : (0 : ℚ) < R * 2)]
      linarith
    linarith
  rw [min_eq_right hw1, max_eq_right hw0]
  field_simp
  ring

/-- The Y axis analogue, with the flip between web and Lens Studio
orientation. -/
theorem axisY_roundtrip (R q : ℚ) (hR : 0 < R) (h1 : -R ≤ q) (h2 : q ≤ R) :
    R - ((max 0 (min 100 (((R - q) / (R * 2)) * 100))) / 100) * (R * 2) = q := by
  have hw0 : 0 ≤ ((R - q) / (R * 2)) * 100 := by
    have hd : (0 : ℚ) ≤ (R - q) / (R * 2) := div_nonneg (by linarith) (by linarith)
    linarith
  have hw1 : ((R - q) / (R * 2)) * 100 ≤ 100 := by
    have hd : (R - q) / (R * 2) ≤ 1 := by
      rw [div_le_one (by linarith : (0 : ℚ) < R * 2)]
      linarith
    linarith
  rw [min_eq_right hw1, max_eq_right hw0]
  field_simp
  ring

/-- The fold behind the limit-one ordered query only ever returns the
accumulator or a row of the list. -/
theorem pollFoldl_mem :
    ∀ (l : List CursorRow) (acc : Option CursorRow) (b : CursorRow),
      l.foldl pollStep acc = some b → acc = some b ∨ b ∈ l := by
  intro l
  induction l with
  | nil => intro acc b h; exact Or.inl h
  | cons r rest ih =>
    intro acc b h
    rcases ih (pollStep acc r) b h with h1 | h2
    · cases acc with
      | none =>
        rw [pollStep] at h1
        rcases Option.some.inj h1 with rfl
        exact Or.inr (List.mem_cons_self _ _)
      | some a =>
        rw [pollStep] at h1
        by_cases hc : a.timestamp < r.timestamp
        · rw [if_pos hc] at h1
          rcases Option.some.inj h1 with rfl
          exact Or.inr (List.mem_cons_self _ _)
        · rw [if_neg hc] at h1
          exact Or.inl h1
    · exact Or.inr (List.mem_cons_of_mem _ h2)

/-- A row returned by the poll query is a row of the table. -/
theorem pollLatestPc_mem (roomName : String) (table : List CursorRow)
    (b : CursorRow) (h : pollLatestPc roomName table = some b) : b ∈ table := by
  rcases pollFoldl_mem _ none b h with h1 | h2
  · cases h1
  · exact List.mem_of_mem_filter h2

/-
  Claim C1.
-/

/-- Claim C1 counterexample: after the spectacles client writes (10, 20) at
time 1000 and (15, 25) at time 2000 into an empty store, the store holds
two records for (demo, spectacles_a), not at most one — writes insert
rather than overwrite in place. -/
theorem C1_counterexample :
    ¬ (countRecordsFor "demo" "spectacles_a" twoWritesTable ≤ 1) := by
  norm_num [twoWritesTable, twoWritesFirst, broadcastSpectaclesCursor,
    insertRow, countRecordsFor]

/-- Claim C1 (amended): every accepted write appends a fresh record to the
store; no existing record is overwritten or removed, so the store retains
one record per write — including several per (room, client_id) — and the
latest-only view exists only at read time. The count for the writing
(room, client_id) grows by exactly one. -/
theorem C1_store_appends (roomName userId userName color : String)
    (broadcastInterval lastBroadcastTime now x y : ℚ) (table : List CursorRow)
    (hthr : ¬ (now - lastBroadcastTime < broadcastInterval * 1000)) :
    (broadcastSpectaclesCursor true roomName broadcastInterval lastBroadcastTime
        now userId userName x y color table).2.2
      = table ++ [{ room_name := roomName, user_id := userId,
                    user_name := userName, x := x, y := y, color := color,
                    timestamp := now }] ∧
    countRecordsFor roomName userId
        ((broadcastSpectaclesCursor true roomName broadcastInterval
            lastBroadcastTime now userId userName x y color table).2.2)
      = countRecordsFor roomName userId table + 1 := by
  constructor
  · simp [broadcastSpectaclesCursor, insertRow, hthr]
  · simp [broadcastSpectaclesCursor, insertRow, hthr, countRecordsFor,
      List.filter_append]

/-- Witness for the amended claim C1 at concrete inputs. -/
theorem C1_store_appends_witness :
    (broadcastSpectaclesCursor true "demo" 0.2 0 1000 "spectacles_a"
        "Spectacles" 10 20 "#4ECDC4" []).2.2
      = [] ++ [{ room_name := "demo", user_id := "spectacles_a",
                 user_name := "Spectacles", x := 10, y := 20,
                 color := "#4ECDC4", timestamp := 1000 }] ∧
    countRecordsFor "demo" "spectacles_a"
        ((broadcastSpectaclesCursor true "demo" 0.2 0 1000 "spectacles_a"
            "Spectacles" 10 20 "#4ECDC4" []).2.2)
      = countRecordsFor "demo" "spectacles_a" [] + 1 :=
  C1_store_appends "demo" "spectacles_a" "Spectacles" "#4ECDC4" 0.2 0 1000
    10 20 [] (by norm_num)

/-
  Claim C2.
-/

/-- Claim C2 counterexample: broadcastCursorPosition on an initialized
broadcaster with x = 150 (outside 0..100) and an empty room name succeeds
and the record enters the store — there is no InvalidPosition or
InvalidRoom rejection. -/
theorem C2_counterexample :
    (broadcastCursorPosition true "" "u" "n" 150 50 "#fff" 1000 []).1 = true ∧
    (broadcastCursorPosition true "" "u" "n" 150 50 "#fff" 1000 []).2
      = [{ room_name := "", user_id := "u", user_name := "n", x := 150,
           y := 50, color := "#fff", timestamp := 1000 }] ∧
    ¬ ((150 : ℚ) ≤ 100) := by
  refine ⟨rfl, ?_, by norm_num⟩
  simp [broadcastCursorPosition, insertRow]

/-- Claim C2 (amended): broadcastCursorPosition performs no validation at
all — whenever the broadcaster is initialized it inserts the record exactly
as given (no rejection and no clamping, for any coordinates and any room
name including the empty one) and reports success; when not initialized it
reports failure and no record enters the store. -/
theorem C2_no_validation (isInitialized : Bool) (roomName userId userName color : String)
    (x y now : ℚ) (table : List CursorRow) :
    (isInitialized = true →
      broadcastCursorPosition isInitialized roomName userId userName x y color
          now table
        = (true, table ++ [{ room_name := roomName, user_id := userId,
                             user_name := userName, x := x, y := y,
                             color := color, timestamp := now }])) ∧
    (isInitialized = false →
      broadcastCursorPosition isInitialized roomName userId userName x y color
          now table
        = (false, table)) := by
  constructor
  · intro h
    simp [broadcastCursorPosition, insertRow, h]
  · intro h
    simp [broadcastCursorPosition, h]

/-- Witness for the amended claim C2: an out-of-range point and an empty
room name are stored unchanged. -/
theorem C2_no_validation_witness :
    broadcastCursorPosition true "" "u" "n" 150 (-7) "#fff" 1000 []
      = (true, [] ++ [{ room_name := "", user_id := "u", user_name := "n",
                        x := 150, y := -7, color := "#fff",
                        timestamp := 1000 }]) :=
  (C2_no_validation true "" "u" "n" "#fff" 150 (-7) 1000 []).1 rfl

/-
  Claim C3.
-/

/-- Claim C3 counterexample: with a record of client u1 at timestamp 2000
already stored, submitting a record of u1 with the older timestamp 1000
changes the store (the older row is appended), rather than leaving it
unchanged. -/
theorem C3_counterexample :
    ((1000 : ℚ) < 2000) ∧
    (broadcastCursorPosition true "demo" "u1" "N" 6 6 "#fff" 1000
        staleWriteTable).2 ≠ staleWriteTable ∧
    countRecordsFor "demo" "u1"
        ((broadcastCursorPosition true "demo" "u1" "N" 6 6 "#fff" 1000
            staleWriteTable).2) = 2 := by
  refine ⟨by norm_num, ?_, ?_⟩
  · simp [broadcastCursorPosition, insertRow, staleWriteTable]
  · norm_num [broadcastCursorPosition, insertRow, staleWriteTable,
      countRecordsFor]

/-- Claim C3 (amended): the store itself keeps no maximum — the silent drop
of out-of-order records happens in the poll consumer: handleCursorUpdate
leaves the follower state entirely unchanged when the incoming timestamp is
not newer than the watermark, and any record it does apply strictly raises
the watermark, so one subscriber observes updates in strictly increasing
timestamp order and an older record never overwrites a newer one. -/
theorem C3_consumer_drops_stale (P : FollowerParams) (st : FollowerState)
    (tnow : ℚ) (r : CursorRow)
    (h : effectiveTimestamp tnow r ≤ st.lastCursorUpdate) :
    handleCursorUpdate P st tnow r = st ∧
    (∀ r2 : CursorRow, handleCursorUpdate P st tnow r2 = st ∨
      st.lastCursorUpdate < (handleCursorUpdate P st tnow r2).lastCursorUpdate) := by
  constructor
  · simp [handleCursorUpdate, h]
  · intro r2
    by_cases h2 : effectiveTimestamp tnow r2 ≤ st.lastCursorUpdate
    · left
      simp [handleCursorUpdate, h2]
    · right
      simp [handleCursorUpdate, h2]
      linarith [not_le.mp h2]

/-- Witness for the amended claim C3: a stale record of another client is
dropped without any state change. -/
theorem C3_consumer_drops_stale_witness :
    handleCursorUpdate exampleFollowerParams exampleFollowerState 9999
        otherClientRow = exampleFollowerState ∧
    (handleCursorUpdate exampleFollowerParams exampleFollowerState 9999
          otherClientRow = exampleFollowerState ∨
      exampleFollowerState.lastCursorUpdate
        < (handleCursorUpdate exampleFollowerParams exampleFollowerState 9999
            otherClientRow).lastCursorUpdate) :=
  ⟨(C3_consumer_drops_stale exampleFollowerParams exampleFollowerState 9999
      otherClientRow (by norm_num [effectiveTimestamp, otherClientRow,
        exampleFollowerState])).1,
   (C3_consumer_drops_stale exampleFollowerParams exampleFollowerState 9999
      otherClientRow (by norm_num [effectiveTimestamp, otherClientRow,
        exampleFollowerState])).2 otherClientRow⟩

/-
  Claim C4.
-/

/-- Claim C4: with shared parameters (axis ranges, per-axis invert flags)
and a point whose Lens Studio coordinates lie inside the mapped ranges (so
that the boundary clamp is the identity), the broadcaster mapping to the
0..100 exchange space followed by the follower mapping back returns the
point exactly; outside the ranges the producer legitimately clamps. -/
theorem C4_transform_roundtrip (lsXRange lsYRange lsX lsY : ℚ) (invX invY : Bool)
    (hRx : 0 < lsXRange) (hRy : 0 < lsYRange)
    (hx : |lsX| ≤ lsXRange) (hy : |lsY| ≤ lsYRange) :
    webPercentToLs lsXRange lsYRange invX invY
        (lsToWebPercent lsXRange lsYRange invX invY lsX lsY).1
        (lsToWebPercent lsXRange lsYRange invX invY lsX lsY).2
      = (lsX, lsY) := by
  obtain ⟨hx1, hx2⟩ := abs_le.mp hx
  obtain ⟨hy1, hy2⟩ := abs_le.mp hy
  have ex := axisX_roundtrip lsXRange lsX hRx hx1 hx2
  have exn := axisX_roundtrip lsXRange (-lsX) hRx (by linarith) (by linarith)
  have ey := axisY_roundtrip lsYRange lsY hRy hy1 hy2
  have eyn := axisY_roundtrip lsYRange (-lsY) hRy (by linarith) (by linarith)
  unfold lsToWebPercent webPercentToLs
  cases invX <;> cases invY <;>
    simp only [Bool.false_eq_true, if_true, if_false, Prod.mk.injEq] <;>
    constructor <;> linarith [ex, exn, ey, eyn]

/-- Witness for claim C4: the point (10, -20) with ranges 50 and 30 and the
X axis inverted round-trips exactly. -/
theorem C4_transform_roundtrip_witness :
    webPercentToLs 50 30 true false
        (lsToWebPercent 50 30 true false 10 (-20)).1
        (lsToWebPercent 50 30 true false 10 (-20)).2
      = (10, -20) :=
  C4_transform_roundtrip 50 30 10 (-20) true false (by norm_num) (by norm_num)
    (by norm_num) (by norm_num)

/-
  Claim C5.
-/

/-- Claim C5: once the sweep runs, every record strictly older than
maxDataAge seconds is removed and can no longer be returned by the poll
read, while a record refreshed recently enough survives; the sweep interval
is 10 seconds and the default maximum age 30 seconds. -/
theorem C5_ttl_eviction (now maxDataAge : ℚ) (table : List CursorRow)
    (r s : CursorRow)
    (hrold : maxDataAge * 1000 < now - r.timestamp)
    (hs : s ∈ table) (hsfresh : now - s.timestamp ≤ maxDataAge * 1000) :
    r ∉ cleanupOldCursorData now maxDataAge table ∧
    s ∈ cleanupOldCursorData now maxDataAge table ∧
    (∀ roomName, pollLatestPc roomName (cleanupOldCursorData now maxDataAge table)
      ≠ some r) ∧
    cleanupIntervalSeconds = 10 ∧ defaultMaxDataAge = 30 := by
  have hrnot : r ∉ cleanupOldCursorData now maxDataAge table := by
    intro hmem
    rw [cleanupOldCursorData, deleteOlderThan, List.mem_filter] at hmem
    have h2 := of_decide_eq_true hmem.2
    simp only [cleanupCutoff] at h2
    exact h2 (by linarith)
  refine ⟨hrnot, ?_, ?_, rfl, rfl⟩
  · rw [cleanupOldCursorData, deleteOlderThan, List.mem_filter]
    refine ⟨hs, decide_eq_true ?_⟩
    simp only [cleanupCutoff]
    intro hlt
    linarith
  · intro roomName hpoll
    exact hrnot (pollLatestPc_mem _ _ _ hpoll)

/-- Witness for claim C5: at time 100000 with a 30 s maximum age, the
record from time 1000 is evicted and unreturnable, while the record from
time 95000 survives. -/
theorem C5_ttl_eviction_witness :
    oldRow ∉ cleanupOldCursorData 100000 30 sweepTable ∧
    freshRow ∈ cleanupOldCursorData 100000 30 sweepTable ∧
    pollLatestPc "demo" (cleanupOldCursorData 100000 30 sweepTable)
      ≠ some oldRow ∧
    cleanupIntervalSeconds = 10 ∧ defaultMaxDataAge = 30 :=
  ⟨(C5_ttl_eviction 100000 30 sweepTable oldRow freshRow
      (by norm_num [oldRow]) (by simp [sweepTable])
      (by norm_num [freshRow])).1,
   (C5_ttl_eviction 100000 30 sweepTable oldRow freshRow
      (by norm_num [oldRow]) (by simp [sweepTable])
      (by norm_num [freshRow])).2.1,
   (C5_ttl_eviction 100000 30 sweepTable oldRow freshRow
      (by norm_num [oldRow]) (by simp [sweepTable])
      (by norm_num [freshRow])).2.2.1 "demo",
   (C5_ttl_eviction 100000 30 sweepTable oldRow freshRow
      (by norm_num [oldRow]) (by simp [sweepTable])
      (by norm_num [freshRow])).2.2.2⟩

/-
  Claim C6.
-/

/-- Claim C6: the DELETE of the sweep is keyed to the timestamp values —
its cutoff is fixed when the sweep starts at t0, and the predicate is
evaluated against each row when the removal executes. A record written at
or after t0 (concurrently with the sweep) therefore always survives the
removal, for any positive maximum age. -/
theorem C6_sweep_spares_concurrent_write (maxDataAge t0 : ℚ)
    (table : List CursorRow) (r : CursorRow)
    (hage : 0 < maxDataAge) (ht : t0 ≤ r.timestamp) :
    r ∈ deleteOlderThan (cleanupCutoff t0 maxDataAge) (insertRow table r) := by
  rw [deleteOlderThan, List.mem_filter]
  refine ⟨?_, decide_eq_true ?_⟩
  · rw [insertRow]
    exact List.mem_append_right _ (List.mem_singleton_self _)
  · simp only [cleanupCutoff]
    intro hlt
    linarith

/-- Witness for claim C6: a record stamped 50005, written while a sweep
that started at 50000 with a 30 s maximum age is in flight, survives the
removal. -/
theorem C6_sweep_spares_concurrent_write_witness :
    ({ room_name := "demo", user_id := "u9", user_name := "W", x := 1, y := 1,
       color := "#eee", timestamp := 50005 } : CursorRow)
      ∈ deleteOlderThan (cleanupCutoff 50000 30)
          (insertRow sweepTable
            { room_name := "demo", user_id := "u9", user_name := "W", x := 1,
              y := 1, color := "#eee", timestamp := 50005 }) :=
  C6_sweep_spares_concurrent_write 30 50000 sweepTable
    { room_name := "demo", user_id := "u9", user_name := "W", x := 1, y := 1,
      color := "#eee", timestamp := 50005 }
    (by norm_num) (by norm_num)

/-
  Claim C7.
-/

/-- Reachable control modes are limited to pc_leader and
spectacles_leader. -/
theorem controlMode_cases (evs : List ControlEvent) :
    ∀ s : ControlState,
      (s.currentControlMode = "pc_leader" ∨
        s.currentControlMode = "spectacles_leader") →
      ((evs.foldl controlStep s).currentControlMode = "pc_leader" ∨
        (evs.foldl controlStep s).currentControlMode = "spectacles_leader") := by
  induction evs with
  | nil => intro s h; exact h
  | cons e rest ih =>
    intro s h
    apply ih
    cases e with
    | takeControl => exact Or.inr rfl
    | releaseControl => exact Or.inl rfl
    | buttonTap =>
      by_cases hb : s.isSpectaclesLeader = true
      · left
        simp [controlStep, toggleSpectaclesControl, hb, resignSpectaclesLeader]
      · right
        simp [controlStep, toggleSpectaclesControl, hb, becomeSpectaclesLeader]
    | serviceStart b =>
      cases b with
      | false => exact h
      | true => exact Or.inr rfl

/-- Claim C7: the leadership state machine starts with currentControlMode
equal to pc_leader (so the PC side leads before any control transition),
every reachable mode is one of pc_leader and spectacles_leader, and both
are reachable. -/
theorem C7_leadership_state_machine :
    initialControlState.currentControlMode = "pc_leader" ∧
    (∀ evs : List ControlEvent,
      (runControl evs).currentControlMode = "pc_leader" ∨
      (runControl evs).currentControlMode = "spectacles_leader") ∧
    (runControl [ControlEvent.takeControl]).currentControlMode
      = "spectacles_leader" := by
  refine ⟨rfl, ?_, rfl⟩
  intro evs
  exact controlMode_cases evs initialControlState (Or.inl rfl)

/-
  Claim C8.
-/

/-- The Lens Studio to web mapping always lands in the 0..100 exchange
range, whatever its input. -/
theorem lsToWebPercent_inRange (Rx Ry : ℚ) (ix iy : Bool) (a b : ℚ) :
    pairInRange (lsToWebPercent Rx Ry ix iy a b) := by
  unfold lsToWebPercent pairInRange
  exact ⟨(clamp01_bounds _).1, (clamp01_bounds _).2,
    (clamp01_bounds _).1, (clamp01_bounds _).2⟩

/-- worldToScreen always lands in the 0..100 exchange range, whatever its
input. -/
theorem worldToScreen_inRange (pscale : ℚ) (wp cp : Vec3) :
    pairInRange (worldToScreen pscale wp cp) := by
  unfold worldToScreen pairInRange
  exact ⟨(clamp01_bounds _).1, (clamp01_bounds _).2,
    (clamp01_bounds _).1, (clamp01_bounds _).2⟩

/-- The full spectacles pipeline also lands in the 0..100 range. -/
theorem spectaclesExchangePoint_inRange (Rx Ry cs ps : ℚ) (ix iy : Bool)
    (rc uc fc : ℚ) :
    pairInRange (spectaclesExchangePoint Rx Ry cs ps ix iy rc uc fc) := by
  unfold spectaclesExchangePoint
  exact lsToWebPercent_inRange _ _ _ _ _ _

/-- Claim C8: both producer transforms clamp their output to the 0..100
exchange range for every native input, and each producer write path — the
spectacles broadcast of a transformed point, the simple broadcast of a
worldToScreen point, and the (0, 0) control signal — preserves the
invariant that every stored record has x and y within 0..100. -/
theorem C8_store_range_invariant (lsXRange lsYRange coordinateScale
      perspectiveScale positionScale : ℚ) (invX invY : Bool)
    (rightComponent upComponent forwardComponent : ℚ) (worldPos cameraPos : Vec3)
    (isInitialized : Bool) (roomName userId userName color : String)
    (broadcastInterval lastBroadcastTime now : ℚ) (table : List CursorRow)
    (h : tableInRange table) :
    pairInRange (spectaclesExchangePoint lsXRange lsYRange coordinateScale
      perspectiveScale invX invY rightComponent upComponent forwardComponent) ∧
    pairInRange (worldToScreen positionScale worldPos cameraPos) ∧
    tableInRange (broadcastSpectaclesCursor isInitialized roomName
        broadcastInterval lastBroadcastTime now userId userName
        (spectaclesExchangePoint lsXRange lsYRange coordinateScale
          perspectiveScale invX invY rightComponent upComponent forwardComponent).1
        (spectaclesExchangePoint lsXRange lsYRange coordinateScale
          perspectiveScale invX invY rightComponent upComponent forwardComponent).2
        color table).2.2 ∧
    tableInRange (simpleBroadcastCursorPosition isInitialized roomName userId
        userName (worldToScreen positionScale worldPos cameraPos).1
        (worldToScreen positionScale worldPos cameraPos).2 color now table).2 ∧
    tableInRange (broadcastControlSignal isInitialized roomName userId color
        now table) := by
  obtain ⟨a1, a2, a3, a4⟩ := spectaclesExchangePoint_inRange lsXRange lsYRange
    coordinateScale perspectiveScale invX invY rightComponent upComponent
    forwardComponent
  obtain ⟨b1, b2, b3, b4⟩ := worldToScreen_inRange positionScale worldPos
    cameraPos
  refine ⟨⟨a1, a2, a3, a4⟩, ⟨b1, b2, b3, b4⟩, ?_, ?_, ?_⟩
  · cases isInitialized with
    | false => simpa [broadcastSpectaclesCursor] using h
    | true =>
      by_cases hth : now - lastBroadcastTime < broadcastInterval * 1000
      · simpa [broadcastSpectaclesCursor, hth] using h
      · simp only [broadcastSpectaclesCursor, hth, if_true, if_false, insertRow,
          if_neg, ite_false, ite_true]
        exact tableInRange_append_row h ⟨a1, a2, a3, a4⟩
  · cases isInitialized with
    | false => simpa [simpleBroadcastCursorPosition] using h
    | true =>
      simp only [simpleBroadcastCursorPosition, insertRow, ite_true]
      exact tableInRange_append_row h ⟨b1, b2, b3, b4⟩
  · cases isInitialized with
    | false => simpa [broadcastControlSignal] using h
    | true =>
      simp only [broadcastControlSignal, insertRow, ite_true]
      exact tableInRange_append_row h (by norm_num [rowInRange])

/-- Witness for claim C8 at concrete parameters, inputs far outside the
mapped range included, over an empty store. -/
theorem C8_store_range_invariant_witness :
    pairInRange (spectaclesExchangePoint 50 30 10 10 false false 4000 (-4000) 5) ∧
    pairInRange (worldToScreen 20 { x := 900, y := -900, z := 0 }
      { x := 0, y := 0, z := 0 }) ∧
    tableInRange (broadcastSpectaclesCursor true "demo" 0.2 0 1000
        "spectacles_a" "Spectacles"
        (spectaclesExchangePoint 50 30 10 10 false false 4000 (-4000) 5).1
        (spectaclesExchangePoint 50 30 10 10 false false 4000 (-4000) 5).2
        "#4ECDC4" []).2.2 ∧
    tableInRange (simpleBroadcastCursorPosition true "demo" "spectacles_a"
        "Spectacles"
        (worldToScreen 20 { x := 900, y := -900, z := 0 }
          { x := 0, y := 0, z := 0 }).1
        (worldToScreen 20 { x := 900, y := -900, z := 0 }
          { x := 0, y := 0, z := 0 }).2
        "#4ECDC4" 1000 []).2 ∧
    tableInRange (broadcastControlSignal true "demo" "spectacles_a" "#4ECDC4"
        1000 []) :=
  C8_store_range_invariant 50 30 10 10 20 false false 4000 (-4000) 5
    { x := 900, y := -900, z := 0 } { x := 0, y := 0, z := 0 } true "demo"
    "spectacles_a" "Spectacles" "#4ECDC4" 0.2 0 1000 []
    (by simp [tableInRange])

/-
  Claim C9.
-/

/-- A user id produced by generateUserId matches LIKE pc_% after any
suffix is appended, the _control suffix included. -/
theorem likePcPattern_generated (s t : String) :
    likePcPattern (generateUserId s ++ t) = true := by
  have hdata : (generateUserId s ++ t).data
      = 'p' :: 'c' :: '_' :: (s.data ++ t.data) := by
    simp [generateUserId, String.data_append]
  rw [likePcPattern, hdata]
  rfl

/-- Claim C9: setControlMode writes the control message as an ordinary
position record under the senders id plus the _control suffix with
coordinates (0, 0); that id still matches the LIKE pc_% filter of the poll
read, so when the control record is the most recent matching record the
poll returns it and handleCursorUpdate applies it as the latest cursor
position. -/
theorem C9_control_record_polled_and_applied
    (roomName userName userColor suffix : String) (now tnow : ℚ)
    (table : List CursorRow) (P : FollowerParams) (st : FollowerState)
    (hfresh : ∀ b ∈ table, pollMatches roomName b = true → b.timestamp < now)
    (hlast : st.lastCursorUpdate < now) (hnz : now ≠ 0) :
    (controlRecord roomName (generateUserId suffix) userName userColor
        now).user_id = generateUserId suffix ++ "_control" ∧
    likePcPattern (controlRecord roomName (generateUserId suffix) userName
      userColor now).user_id = true ∧
    (controlRecord roomName (generateUserId suffix) userName userColor now).x
      = 0 ∧
    (controlRecord roomName (generateUserId suffix) userName userColor now).y
      = 0 ∧
    pollLatestPc roomName (setControlMode roomName (generateUserId suffix)
        userName userColor now table)
      = some (controlRecord roomName (generateUserId suffix) userName userColor
          now) ∧
    handleCursorUpdate P st tnow
        (controlRecord roomName (generateUserId suffix) userName userColor now)
      = { lastCursorUpdate := now,
          targetPosition := mkTargetPosition P 0 0,
          activeUsers := mapSet st.activeUsers
            (generateUserId suffix ++ "_control")
            { name := userName ++ " (control)", color := userColor,
              lastSeen := now } } := by
  have hlike : likePcPattern (controlRecord roomName (generateUserId suffix)
      userName userColor now).user_id = true :=
    likePcPattern_generated suffix "_control"
  have hmatch : pollMatches roomName (controlRecord roomName
      (generateUserId suffix) userName userColor now) = true := by
    simp [pollMatches, controlRecord, hlike, likePcPattern_generated]
  refine ⟨rfl, hlike, rfl, rfl, ?_, ?_⟩
  · rw [pollLatestPc, setControlMode, insertRow, List.filter_append]
    have hone : List.filter (pollMatches roomName)
        [controlRecord roomName (generateUserId suffix) userName userColor now]
        = [controlRecord roomName (generateUserId suffix) userName userColor
            now] := by
      simp [hmatch]
    rw [hone, List.foldl_append]
    cases hm : (table.filter (pollMatches roomName)).foldl pollStep none with
    | none => rfl
    | some b =>
      have hbmem : b ∈ table.filter (pollMatches roomName) := by
        rcases pollFoldl_mem _ none b hm with h1 | h2
        · cases h1
        · exact h2
      have hb : b.timestamp < now := by
        rw [List.mem_filter] at hbmem
        exact hfresh b hbmem.1 hbmem.2
      show pollStep (some b) _ = _
      rw [pollStep]
      rw [if_pos (show b.timestamp < (controlRecord roomName
        (generateUserId suffix) userName userColor now).timestamp from hb)]
  · have hts : effectiveTimestamp tnow (controlRecord roomName
        (generateUserId suffix) userName userColor now) = now := by
      simp [effectiveTimestamp, controlRecord, hnz]
    rw [handleCursorUpdate, hts, if_neg (not_le.mpr hlast)]
    rfl

/-- Witness for claim C9: a concrete control record at time 9000 written
over a table holding an older PC cursor row is returned by the poll and
applied by the follower. -/
theorem C9_control_record_polled_and_applied_witness :
    (controlRecord "demo" (generateUserId "abc123") "PC" "#ddd"
        9000).user_id = generateUserId "abc123" ++ "_control" ∧
    likePcPattern (controlRecord "demo" (generateUserId "abc123") "PC" "#ddd"
      9000).user_id = true ∧
    (controlRecord "demo" (generateUserId "abc123") "PC" "#ddd" 9000).x = 0 ∧
    (controlRecord "demo" (generateUserId "abc123") "PC" "#ddd" 9000).y = 0 ∧
    pollLatestPc "demo" (setControlMode "demo" (generateUserId "abc123") "PC"
        "#ddd" 9000 beforeControlTable)
      = some (controlRecord "demo" (generateUserId "abc123") "PC" "#ddd"
          9000) ∧
    handleCursorUpdate exampleFollowerParams exampleFollowerState 9000
        (controlRecord "demo" (generateUserId "abc123") "PC" "#ddd" 9000)
      = { lastCursorUpdate := 9000,
          targetPosition := mkTargetPosition exampleFollowerParams 0 0,
          activeUsers := mapSet exampleFollowerState.activeUsers
            (generateUserId "abc123" ++ "_control")
            { name := "PC" ++ " (control)", color := "#ddd",
              lastSeen := 9000 } } :=
  C9_control_record_polled_and_applied "demo" "PC" "#ddd" "abc123" 9000 9000
    beforeControlTable exampleFollowerParams exampleFollowerState
    (by intro b hb hm
        rcases List.mem_singleton.mp hb with rfl
        norm_num)
    (by norm_num [exampleFollowerState]) (by norm_num)

/-
  Claim C10.
-/

/-- Claim C10: the poll consumer keeps one lastCursorUpdate watermark for
all clients — a fetched record whose effective timestamp does not exceed it
is discarded whatever its client id is, leaving the follower state
untouched. -/
theorem C10_single_shared_watermark (P : FollowerParams) (st : FollowerState)
    (tnow : ℚ) (r : CursorRow) (userId : String)
    (h : effectiveTimestamp tnow r ≤ st.lastCursorUpdate) :
    handleCursorUpdate P st tnow { r with user_id := userId } = st := by
  have he : effectiveTimestamp tnow { r with user_id := userId }
      = effectiveTimestamp tnow r := rfl
  rw [handleCursorUpdate, he, if_pos h]

/-- Witness for claim C10: a record of a client the follower has never
seen, with a timestamp below the watermark set by a different client, is
dropped. -/
theorem C10_single_shared_watermark_witness :
    handleCursorUpdate exampleFollowerParams exampleFollowerState 9999
        { otherClientRow with user_id := "pc_never_seen_before" }
      = exampleFollowerState :=
  C10_single_shared_watermark exampleFollowerParams exampleFollowerState 9999
    otherClientRow "pc_never_seen_before"
    (by norm_num [effectiveTimestamp, otherClientRow, exampleFollowerState])

end Supathon
